import Mathlib

/-!
# Verification of the transcription tool's background job orchestrator

Shallow embedding of `src/app/services/job_manager.py` (the job record
store, the status-listener update path, job creation, submission,
cancellation, the progress/version query surface, and the worker body's
message trace), faithful to the source module.

Conventions of the embedding:
* The in-memory dict `_jobs` is an association list with Python-dict
  semantics (`setJob` replaces the first binding with a matching key,
  otherwise appends; `lookupJob` is `dict.get`).
* The `_processes` dict is modelled by its key set (a list of job ids):
  the claims only observe whether a worker handle is recorded for an id.
* Python truthiness of `if result:` / `if error:` in `_update_job_state`
  is modelled exactly: a (pydantic) model instance is always truthy,
  a string is truthy iff nonempty, `None` is falsy.
* `uuid.uuid4().hex[:12]` and `datetime.now()` are nondeterministic
  inputs of `create_job`; the embedding takes them as parameters.
* Machine integers: Python ints are unbounded, so `Int`/`Nat` are exact.
-/

namespace JobManager

/-- Modelled from the spec: `JobStatus` is imported from
`app.models.schemas` but that file does not define it; its members are
reconstructed from every use site in `job_manager.py` and `api.py`
(QUEUED, LOADING_MODEL, CONVERTING, TRANSCRIBING, COMPLETED, FAILED,
CANCELLED) and from the spec's state list (spec names LOADING and
RUNNING correspond to LOADING_MODEL and TRANSCRIBING). -/
inductive JobStatus where
  | QUEUED
  | LOADING_MODEL
  | CONVERTING
  | TRANSCRIBING
  | COMPLETED
  | FAILED
  | CANCELLED
  deriving DecidableEq, BEq, Repr

/-- `TimestampEntry` from `app/models/schemas.py`: one timestamped text
segment (floats kept as `Float`; no claim inspects them). -/
structure TimestampEntry where
  start_time : Float
  end_time : Float
  text : String
  deriving Repr

/-- `TranscriptionResponse` from `app/models/schemas.py`. -/
structure TranscriptionResponse where
  text : String
  timestamps : Option (List TimestampEntry) := none
  video_filename : String
  deriving Repr

/-- One record of the in-memory job store `_jobs[job_id]`, with the
fields exactly as initialised by `create_job` (the `_version` field is
spelled `version` here). -/
structure Job where
  job_id : String
  session_id : String
  file_path : String
  video_filename : String
  language : Option String
  status : JobStatus
  progress : Int
  message : String
  result : Option TranscriptionResponse
  error : Option String
  created_at : Nat
  version : Nat
  deriving Repr

/-- The `_jobs` dict: job_id -> job data, as an association list with
unique keys in creation order. -/
abbrev JobStore := List (String × Job)

/-- `_jobs.get(job_id)`. -/
def lookupJob (jobs : JobStore) (job_id : String) : Option Job :=
  match jobs with
  | [] => none
  | (k, j) :: rest => if k = job_id then some j else lookupJob rest job_id

/-- `_jobs[job_id] = job`: replace the binding if the key is present,
append it otherwise (Python dict assignment). -/
def setJob (jobs : JobStore) (job_id : String) (job : Job) : JobStore :=
  match jobs with
  | [] => [(job_id, job)]
  | (k, j) :: rest =>
      if k = job_id then (k, job) :: rest else (k, j) :: setJob rest job_id job

/-- Python truthiness of the `result` argument in `_update_job_state`
(`if result:`): `None` is falsy, a `TranscriptionResponse` instance is
always truthy. -/
def resultTruthy : Option TranscriptionResponse → Bool
  | none => false
  | some _ => true

/-- Python truthiness of the `error` argument in `_update_job_state`
(`if error:`): `None` and the empty string are falsy, any other string
is truthy. -/
def errorTruthy : Option String → Bool
  | none => false
  | some e => e ≠ ""

/-- `_update_job_state(job_id, status, progress, message, result, error)`
(job_manager.py lines 167-192): the single mutation path used by the
status listener. Returns the store unchanged when the job is missing or
its current status is CANCELLED; otherwise overwrites status, progress
and message, assigns result/error only when truthy, and increments
`_version` by one. -/
def updateJobState (jobs : JobStore) (job_id : String) (status : JobStatus)
    (progress : Int) (message : String)
    (result : Option TranscriptionResponse) (error : Option String) : JobStore :=
  match lookupJob jobs job_id with
  | none => jobs
  | some job =>
      if job.status = JobStatus.CANCELLED then jobs
      else
        setJob jobs job_id
          { job with
            status := status
            progress := progress
            message := message
            result := if resultTruthy result then result else job.result
            error := if errorTruthy error then error else job.error
            version := job.version + 1 }

/-- `create_job(session_id, file_path, video_filename, language)`
(lines 195-218). The generated `uuid4().hex[:12]` id and the
`datetime.now()` timestamp are nondeterministic and passed in as
`job_id` and `created_at`. -/
def createJob (jobs : JobStore) (job_id : String)
    (session_id : String) (file_path : String) (video_filename : String)
    (language : Option String) (created_at : Nat) : JobStore :=
  setJob jobs job_id
    { job_id := job_id
      session_id := session_id
      file_path := file_path
      video_filename := video_filename
      language := language
      status := JobStatus.QUEUED
      progress := 0
      message := "Job queued"
      result := none
      error := none
      created_at := created_at
      version := 0 }

/-- Orchestrator state visible to `submit_job`: the `_jobs` store and
the key set of the `_processes` dict (which job ids have a recorded
worker handle). -/
structure ManagerState where
  jobs : JobStore
  processes : List String
  deriving Repr

/-- `_processes[job_id] = p`: the key set gains `job_id` (idempotent on
keys, as dict assignment is). -/
def recordProcess (processes : List String) (job_id : String) : List String :=
  if job_id ∈ processes then processes else processes ++ [job_id]

/-- `submit_job(job_id)` (lines 221-243). The source checks only that
the job exists; it never inspects the job's status. On an existing job
it spawns a worker process (`p.start()`, modelled by the returned Bool)
and records its handle in `_processes`; on a missing id it logs and
returns without effect. The job store itself is not written. -/
def submitJob (st : ManagerState) (job_id : String) : Bool × ManagerState :=
  match lookupJob st.jobs job_id with
  | none => (false, st)
  | some _ => (true, { st with processes := recordProcess st.processes job_id })

/-- `stop_job(job_id)` (lines 246-275), restricted to its effect on the
job store and its return value: returns `false` without mutation when
the job is missing or already COMPLETED/FAILED/CANCELLED; otherwise
sets status to CANCELLED, sets the message to "Job stopped by user",
increments `_version` by one, and returns `true`. The OS-level
`terminate`/`join`/`kill` of the worker process (lines 264-272) is
real-time process teardown outside the store and is not modelled. -/
def stopJob (jobs : JobStore) (job_id : String) : Bool × JobStore :=
  match lookupJob jobs job_id with
  | none => (false, jobs)
  | some job =>
      if job.status = JobStatus.COMPLETED ∨ job.status = JobStatus.FAILED ∨
          job.status = JobStatus.CANCELLED then
        (false, jobs)
      else
        (true,
          setJob jobs job_id
            { job with
              status := JobStatus.CANCELLED
              message := "Job stopped by user"
              version := job.version + 1 })

/-- Modelled from the spec: `JobProgress` is imported from
`app.models.schemas` but that file does not define it; its fields are
reconstructed from the keyword arguments of its one construction site in
`get_job_progress` and from §4.6 of the spec (the progress view
`\x7bid, status, progress_percent, message, result, error\x7d`, which never
exposes the version counter). -/
structure JobProgress where
  job_id : String
  status : JobStatus
  progress : Int
  message : String
  result : Option TranscriptionResponse
  error : Option String
  deriving Repr

/-- `get_job_progress(job_id)` (lines 282-293): `None` for an unknown
id, otherwise the read-only progress view. A total pure function: it
raises nothing and writes nothing. -/
def getJobProgress (jobs : JobStore) (job_id : String) : Option JobProgress :=
  match lookupJob jobs job_id with
  | none => none
  | some job =>
      some
        { job_id := job.job_id
          status := job.status
          progress := job.progress
          message := job.message
          result := job.result
          error := job.error }

/-- `get_job_version(job_id)` (lines 296-298): `-1` for an unknown id,
otherwise the job's `_version`. A total pure function. -/
def getJobVersion (jobs : JobStore) (job_id : String) : Int :=
  match lookupJob jobs job_id with
  | none => -1
  | some job => (job.version : Int)

/-- A terminal status in the sense of the spec's §3 invariants:
COMPLETED, FAILED or CANCELLED (the triple tested by `stop_job`). -/
def isTerminal (s : JobStatus) : Bool :=
  s == JobStatus.COMPLETED || s == JobStatus.FAILED || s == JobStatus.CANCELLED

/-- One message on the status queue, the tuple
`(job_id, status, progress, message, result, error)` put by a worker
(job_manager.py line 55). -/
structure Msg where
  job_id : String
  status : JobStatus
  progress : Int
  message : String
  result : Option TranscriptionResponse
  error : Option String
  deriving Repr

/-- `TqdmToQueue.update`'s progress mapping (line 75):
`mapped_pct = 50 + int(pct * 0.4)` for the integer percentage
`pct = int((self.n / self.total) * 100)`. For every integer
`pct` with `0 ≤ pct ≤ 100`, Python's `int(pct * 0.4)` equals
`⌊2 * pct / 5⌋`: the double nearest to 0.4 is slightly above 2/5, so
for multiples of 5 the product rounds to (or truncates back to) the
exact integer, and for the rest the exact value is at least 0.2 away
from any integer, far beyond the rounding error. Hence Nat division. -/
def tqdmMappedPct (pct : Nat) : Nat :=
  50 + pct * 2 / 5

/-- The spec's §4.2 phase-3 mapping formula, written from the spec's
words: `mapped = 50 + floor(sub_pct * 0.4)`, with 0.4 read as the exact
rational 2/5. Declared for comparison with `tqdmMappedPct`, which is
translated from the source. -/
def specMappedPct (sub_pct : Nat) : Int :=
  50 + Int.floor ((sub_pct : ℚ) * (2 / 5 : ℚ))

/-- The sub-progress messages put by the monkey-patched
`TqdmToQueue.update` hook during `transcribe_file`, one per reported
integer sub-percentage `pct`: status TRANSCRIBING, progress
`tqdmMappedPct pct`, message `f"Transcribing: {pct}%"` (lines 67-81). -/
def subProgressMsgs (job_id : String) (subPcts : List Nat) : List Msg :=
  subPcts.map fun pct =>
    { job_id := job_id
      status := JobStatus.TRANSCRIBING
      progress := (tqdmMappedPct pct : Int)
      message := "Transcribing: " ++ toString pct ++ "%"
      result := none
      error := none }

/-- The FAILED message put by the worker's `except` clause (lines
127-130): `(job_id, FAILED, 0, f"Transcription failed: {e}", None, str(e))`. -/
def failedMsg (job_id : String) (e : String) : Msg :=
  { job_id := job_id
    status := JobStatus.FAILED
    progress := 0
    message := "Transcription failed: " ++ e
    result := none
    error := some e }

/-- The LOADING_MODEL phase-entry message (line 95). -/
def loadingMsg (job_id : String) : Msg :=
  { job_id := job_id, status := JobStatus.LOADING_MODEL, progress := 10,
    message := "Loading Whisper model...", result := none, error := none }

/-- The three fixed phase-entry messages of `_worker_process`
(lines 95, 103, 106). -/
def phaseMsgs (job_id : String) : List Msg :=
  [loadingMsg job_id,
   { job_id := job_id, status := JobStatus.CONVERTING, progress := 30,
     message := "Converting audio with ffmpeg...", result := none, error := none },
   { job_id := job_id, status := JobStatus.TRANSCRIBING, progress := 50,
     message := "Transcribing audio...", result := none, error := none }]

/-- The COMPLETED message (lines 118-123): progress 100,
"Transcription complete!", with the built `TranscriptionResponse` as
result. -/
def completedMsg (job_id : String) (res : TranscriptionResponse) : Msg :=
  { job_id := job_id
    status := JobStatus.COMPLETED
    progress := 100
    message := "Transcription complete!"
    result := some res
    error := none }

/-- How one execution of the `_worker_process` body resolves. The body
is one `try` block whose fallible operations are, in order: the imports
and tqdm patching before the first `send_update` (LOADING_MODEL has not
been put yet when these raise), `load_model`, `transcribe_file` (after
the CONVERTING and TRANSCRIBING phase messages; the tqdm hook has by
then reported some list of sub-percentages), and — after the COMPLETED
message has already been put — `transcriber.cleanup()` (line 125, still
inside the `try`). Any `Exception` from any of them reaches the single
`except` clause. Puts on the queue are treated as reliable, matching
the spec's §4.3 delivery model. -/
inductive WorkerOutcome where
  /-- an exception `e` is raised before the first `send_update`
  (e.g. `import tqdm` fails). -/
  | raiseEarly (e : String)
  /-- `transcriber.load_model()` (or the import of `WhisperTranscriber`)
  raises `e`, after LOADING_MODEL was put. -/
  | raiseInLoad (e : String)
  /-- an exception `e` is raised between the TRANSCRIBING phase message
  and the COMPLETED put (inside `transcribe_file` or while building the
  `TranscriptionResponse`), after the tqdm hook reported `subPcts`. -/
  | raiseInTranscribe (subPcts : List Nat) (e : String)
  /-- all four phases succeed: the tqdm hook reported `subPcts`, the
  response `res` was put with COMPLETED; `cleanupFault = some e` when
  `transcriber.cleanup()` then raises `e` (only `OSError` from the file
  deletions is caught inside `cleanup`; anything else escapes into the
  worker's `except`). -/
  | success (subPcts : List Nat) (res : TranscriptionResponse)
      (cleanupFault : Option String)

/-- The full trace of messages one execution of the `_worker_process`
body (lines 46-130) puts on the status queue, as a function of how the
execution resolves. -/
def workerRun (job_id : String) (o : WorkerOutcome) : List Msg :=
  match o with
  | .raiseEarly e => [failedMsg job_id e]
  | .raiseInLoad e =>
      [loadingMsg job_id, failedMsg job_id e]
  | .raiseInTranscribe subPcts e =>
      phaseMsgs job_id ++ subProgressMsgs job_id subPcts ++ [failedMsg job_id e]
  | .success subPcts res cleanupFault =>
      phaseMsgs job_id ++ subProgressMsgs job_id subPcts ++
        [completedMsg job_id res] ++
        (match cleanupFault with
         | none => []
         | some e => [failedMsg job_id e])

/-- Number of terminal-status messages in a worker trace. -/
def terminalCount (ms : List Msg) : Nat :=
  ms.countP fun m => isTerminal m.status

/-! ## Store lemmas -/

theorem lookupJob_setJob_self (jobs : JobStore) (job_id : String) (job : Job) :
    lookupJob (setJob jobs job_id job) job_id = some job := by
  induction jobs with
  | nil => simp [setJob, lookupJob]
  | cons hd tl ih =>
      obtain ⟨k, j⟩ := hd
      by_cases hk : k = job_id
      · simp [setJob, lookupJob, hk]
      · simp [setJob, lookupJob, hk, ih]

theorem lookupJob_setJob_ne (jobs : JobStore) (job_id other : String) (job : Job)
    (h : other ≠ job_id) :
    lookupJob (setJob jobs job_id job) other = lookupJob jobs other := by
  have h' : job_id ≠ other := Ne.symm h
  induction jobs with
  | nil => simp [setJob, lookupJob, h']
  | cons hd tl ih =>
      obtain ⟨k, j⟩ := hd
      by_cases hk : k = job_id
      · subst hk
        simp [setJob, lookupJob, h']
      · simp only [setJob, if_neg hk, lookupJob]
        by_cases hko : k = other <;> simp [hko, ih]

/-- An update applied to a job that exists and is not CANCELLED is
accepted: the stored record is overwritten field by field and the
version is incremented. -/
theorem updateJobState_accepted (jobs : JobStore) (job_id : String) (job : Job)
    (status : JobStatus) (progress : Int) (message : String)
    (result : Option TranscriptionResponse) (error : Option String)
    (h : lookupJob jobs job_id = some job)
    (hnc : job.status ≠ JobStatus.CANCELLED) :
    lookupJob (updateJobState jobs job_id status progress message result error) job_id =
      some
        { job with
          status := status
          progress := progress
          message := message
          result := if resultTruthy result then result else job.result
          error := if errorTruthy error then error else job.error
          version := job.version + 1 } := by
  unfold updateJobState
  rw [h]
  simp [hnc, lookupJob_setJob_self]

/-- An update applied to a CANCELLED job is discarded: the store is
returned unchanged (job_manager.py lines 180-182). -/
theorem updateJobState_cancelled (jobs : JobStore) (job_id : String) (job : Job)
    (status : JobStatus) (progress : Int) (message : String)
    (result : Option TranscriptionResponse) (error : Option String)
    (h : lookupJob jobs job_id = some job)
    (hc : job.status = JobStatus.CANCELLED) :
    updateJobState jobs job_id status progress message result error = jobs := by
  unfold updateJobState
  rw [h]
  simp [hc]

/-- An update on a missing job id is a no-op. -/
theorem updateJobState_missing (jobs : JobStore) (job_id : String)
    (status : JobStatus) (progress : Int) (message : String)
    (result : Option TranscriptionResponse) (error : Option String)
    (h : lookupJob jobs job_id = none) :
    updateJobState jobs job_id status progress message result error = jobs := by
  unfold updateJobState
  rw [h]

/-- Every sub-progress message carries status TRANSCRIBING, which is not
terminal and not FAILED. -/
theorem subProgressMsgs_status (job_id : String) (subPcts : List Nat) (m : Msg)
    (hm : m ∈ subProgressMsgs job_id subPcts) :
    m.status = JobStatus.TRANSCRIBING := by
  simp only [subProgressMsgs, List.mem_map] at hm
  obtain ⟨pct, _, rfl⟩ := hm
  rfl

theorem terminalCount_subProgressMsgs (job_id : String) (subPcts : List Nat) :
    terminalCount (subProgressMsgs job_id subPcts) = 0 := by
  unfold terminalCount
  apply List.countP_eq_zero.mpr
  intro m hm
  have hs := subProgressMsgs_status job_id subPcts m hm
  simp [isTerminal, hs]
  exact ⟨⟨rfl, rfl⟩, rfl⟩

theorem terminalCount_append (ms ns : List Msg) :
    terminalCount (ms ++ ns) = terminalCount ms + terminalCount ns := by
  simp [terminalCount, List.countP_append]

/-! ## Concrete fixtures used by witnesses and counterexamples -/

/-- A sample transcription result. -/
def sampleResult : TranscriptionResponse :=
  { text := "Welcome everyone to the meeting.", timestamps := none,
    video_filename := "meeting.mp4" }

/-- A job that has already COMPLETED (version 5, result stored). -/
def completedJob : Job :=
  { job_id := "job0", session_id := "sess0", file_path := "/tmp/a.mp4",
    video_filename := "a.mp4", language := none, status := JobStatus.COMPLETED,
    progress := 100, message := "Transcription complete!",
    result := some sampleResult, error := none, created_at := 0, version := 5 }

/-- A store holding only `completedJob`. -/
def completedStore : JobStore := [("job0", completedJob)]

/-- A mid-flight TRANSCRIBING job that has both a stored result and a
stored error from earlier accepted updates. -/
def runningJob : Job :=
  { job_id := "job1", session_id := "sess1", file_path := "/tmp/b.mp4",
    video_filename := "b.mp4", language := some "en",
    status := JobStatus.TRANSCRIBING, progress := 50,
    message := "Transcribing audio...", result := some sampleResult,
    error := some "previous error", created_at := 3, version := 4 }

/-- A store holding only `runningJob`. -/
def runningStore : JobStore := [("job1", runningJob)]

/-- A freshly created QUEUED job, exactly as `create_job` writes it. -/
def queuedJob : Job :=
  { job_id := "jobQ", session_id := "sessQ", file_path := "/tmp/q.mp4",
    video_filename := "q.mp4", language := none, status := JobStatus.QUEUED,
    progress := 0, message := "Job queued", result := none, error := none,
    created_at := 0, version := 0 }

/-- A store holding only `queuedJob` (built through `createJob`). -/
def queuedStore : JobStore :=
  createJob [] "jobQ" "sessQ" "/tmp/q.mp4" "q.mp4" none 0

/-- The CANCELLED job produced by cancelling `queuedJob` right after
creation: status CANCELLED, message "Job stopped by user", version 1. -/
def cancelledJob : Job :=
  { job_id := "jobQ", session_id := "sessQ", file_path := "/tmp/q.mp4",
    video_filename := "q.mp4", language := none, status := JobStatus.CANCELLED,
    progress := 0, message := "Job stopped by user", result := none,
    error := none, created_at := 0, version := 1 }

/-- The store obtained by creating a job and cancelling it immediately,
before any worker message arrives (spec §8, scenario for job B). -/
def cancelledStore : JobStore := (stopJob queuedStore "jobQ").2

/-! ## Claims -/

/-- C7: for every job already in status COMPLETED, FAILED, or
CANCELLED, calling cancel (`stop_job`) returns false and leaves the
job's state — status, progress, message, result, error, version —
completely unchanged (it returns before any mutation, so the whole
store is returned as-is). -/
theorem stopJob_terminal_noop (jobs : JobStore) (job_id : String) (job : Job)
    (h : lookupJob jobs job_id = some job)
    (hterm : job.status = JobStatus.COMPLETED ∨ job.status = JobStatus.FAILED ∨
      job.status = JobStatus.CANCELLED) :
    stopJob jobs job_id = (false, jobs) := by
  unfold stopJob
  rw [h]
  simp [hterm]

/-- Witness for C7: cancelling the concrete COMPLETED job `completedJob`
returns false and the store is untouched. -/
theorem stopJob_terminal_noop_witness :
    lookupJob completedStore "job0" = some completedJob ∧
    completedJob.status = JobStatus.COMPLETED ∧
    stopJob completedStore "job0" = (false, completedStore) :=
  ⟨rfl, rfl, stopJob_terminal_noop completedStore "job0" completedJob rfl (Or.inl rfl)⟩

/-- C9: for every job id that was never created in the store,
`get_job_version` returns -1 and `get_job_progress` returns `None`;
both are total pure functions, so neither raises nor mutates state. -/
theorem unknown_job_queries (jobs : JobStore) (job_id : String)
    (h : lookupJob jobs job_id = none) :
    getJobVersion jobs job_id = -1 ∧ getJobProgress jobs job_id = none := by
  refine ⟨?_, ?_⟩
  · unfold getJobVersion
    rw [h]
  · unfold getJobProgress
    rw [h]

/-- Witness for C9: the id "ghost" in the empty store. -/
theorem unknown_job_queries_witness :
    lookupJob [] "ghost" = none ∧
    (getJobVersion [] "ghost" = -1 ∧ getJobProgress [] "ghost" = none) :=
  ⟨rfl, unknown_job_queries [] "ghost" rfl⟩

/-- C10: for every existing non-cancelled job, applying a worker update
whose result and error are both `None` replaces status, progress and
message and increments the version, but leaves the previously stored
result and error values unchanged (`if result:` / `if error:` skip the
assignment on `None`). -/
theorem update_null_frame (jobs : JobStore) (job_id : String) (job : Job)
    (status : JobStatus) (progress : Int) (message : String)
    (h : lookupJob jobs job_id = some job)
    (hnc : job.status ≠ JobStatus.CANCELLED) :
    lookupJob (updateJobState jobs job_id status progress message none none) job_id =
      some
        { job with
          status := status
          progress := progress
          message := message
          version := job.version + 1 } := by
  have hacc :=
    updateJobState_accepted jobs job_id job status progress message none none h hnc
  simpa [resultTruthy, errorTruthy] using hacc

/-- Witness for C10: a null-result/null-error RUNNING update on
`runningJob` keeps its stored result and error. -/
theorem update_null_frame_witness :
    lookupJob runningStore "job1" = some runningJob ∧
    runningJob.status ≠ JobStatus.CANCELLED ∧
    lookupJob
        (updateJobState runningStore "job1" JobStatus.TRANSCRIBING 74
          "Transcribing: 60%" none none) "job1" =
      some
        { runningJob with
          status := JobStatus.TRANSCRIBING
          progress := 74
          message := "Transcribing: 60%"
          version := 5 } :=
  ⟨rfl, by decide,
    update_null_frame runningStore "job1" runningJob JobStatus.TRANSCRIBING 74
      "Transcribing: 60%" rfl (by decide)⟩

/-- C2: for every job whose current status is CANCELLED, any
worker-originated message applied afterwards through the listener's
update path is discarded without effect — the store is returned
unchanged, so the version still reflects only the mutations before the
cancel. -/
theorem cancelled_discards_updates (jobs : JobStore) (job_id : String) (job : Job)
    (status : JobStatus) (progress : Int) (message : String)
    (result : Option TranscriptionResponse) (error : Option String)
    (h : lookupJob jobs job_id = some job)
    (hc : job.status = JobStatus.CANCELLED) :
    updateJobState jobs job_id status progress message result error = jobs ∧
    getJobVersion (updateJobState jobs job_id status progress message result error)
        job_id = (job.version : Int) := by
  have he := updateJobState_cancelled jobs job_id job status progress message
    result error h hc
  refine ⟨he, ?_⟩
  rw [he]
  unfold getJobVersion
  rw [h]

/-- Witness for C2, the spec's §8 job-B scenario: create a job, cancel
it immediately (version 1), then a delayed RUNNING message arrives; it
is discarded and the version stays 1. -/
theorem cancelled_discards_updates_witness :
    lookupJob cancelledStore "jobQ" = some cancelledJob ∧
    cancelledJob.status = JobStatus.CANCELLED ∧
    (updateJobState cancelledStore "jobQ" JobStatus.TRANSCRIBING 60
        "Transcribing: 25%" none none = cancelledStore ∧
      getJobVersion
          (updateJobState cancelledStore "jobQ" JobStatus.TRANSCRIBING 60
            "Transcribing: 25%" none none) "jobQ" = 1) :=
  ⟨rfl, rfl,
    cancelled_discards_updates cancelledStore "jobQ" cancelledJob
      JobStatus.TRANSCRIBING 60 "Transcribing: 25%" none none rfl rfl⟩

/-- C1 counterexample: a job already in COMPLETED status (version 5,
error `None`) is mutated by a subsequently applied FAILED message —
`_update_job_state` guards only against CANCELLED, so status flips to
FAILED, the error field is set, and the version is bumped to 6. -/
theorem completed_not_sticky_counterexample :
    (lookupJob completedStore "job0").map Job.status = some JobStatus.COMPLETED ∧
    (lookupJob completedStore "job0").map Job.error = some none ∧
    (lookupJob
          (updateJobState completedStore "job0" JobStatus.FAILED 0
            "Transcription failed: boom" none (some "boom")) "job0").map
        Job.status = some JobStatus.FAILED ∧
    (lookupJob
          (updateJobState completedStore "job0" JobStatus.FAILED 0
            "Transcription failed: boom" none (some "boom")) "job0").map
        Job.error = some (some "boom") ∧
    getJobVersion completedStore "job0" = 5 ∧
    getJobVersion
        (updateJobState completedStore "job0" JobStatus.FAILED 0
          "Transcription failed: boom" none (some "boom")) "job0" = 6 := by
  refine ⟨rfl, rfl, rfl, rfl, rfl, rfl⟩

/-- C1 (amended): among the terminal statuses only CANCELLED is sticky
in the listener's update path — applying an update to a terminal job
leaves the store (hence status, result, error and version) unchanged if
and only if that terminal status is CANCELLED; an update applied to a
COMPLETED or FAILED job is accepted and changes the stored record. -/
theorem terminal_sticky_iff_cancelled (jobs : JobStore) (job_id : String) (job : Job)
    (status : JobStatus) (progress : Int) (message : String)
    (result : Option TranscriptionResponse) (error : Option String)
    (h : lookupJob jobs job_id = some job)
    (_hterm : isTerminal job.status = true) :
    updateJobState jobs job_id status progress message result error = jobs ↔
      job.status = JobStatus.CANCELLED := by
  by_cases hc : job.status = JobStatus.CANCELLED
  · exact iff_of_true
      (updateJobState_cancelled jobs job_id job status progress message result
        error h hc) hc
  · constructor
    · intro heq
      exfalso
      have hacc := updateJobState_accepted jobs job_id job status progress message
        result error h hc
      rw [heq, h] at hacc
      have hv := congrArg Job.version (Option.some.inj hacc)
      simp only at hv
      omega
    · intro hc'
      exact absurd hc' hc

/-- Witness for C1 (amended): for the concrete CANCELLED job
`cancelledJob`, a late FAILED message leaves the store unchanged. -/
theorem terminal_sticky_iff_cancelled_witness :
    lookupJob cancelledStore "jobQ" = some cancelledJob ∧
    isTerminal cancelledJob.status = true ∧
    updateJobState cancelledStore "jobQ" JobStatus.FAILED 0
        "Transcription failed: late" none (some "late") = cancelledStore :=
  ⟨rfl, rfl,
    (terminal_sticky_iff_cancelled cancelledStore "jobQ" cancelledJob
        JobStatus.FAILED 0 "Transcription failed: late" none (some "late") rfl
        rfl).mpr rfl⟩

/-- C4 counterexample: `submit_job` never inspects the job's status —
submitting the concrete COMPLETED (hence non-QUEUED) job `completedJob`
spawns a worker (returns true) and records its handle in the process
map, refuting the claimed no-op. -/
theorem submit_non_queued_counterexample :
    (lookupJob completedStore "job0").map Job.status = some JobStatus.COMPLETED ∧
    (submitJob { jobs := completedStore, processes := [] } "job0").1 = true ∧
    (submitJob { jobs := completedStore, processes := [] } "job0").2.processes =
      ["job0"] := by
  refine ⟨rfl, rfl, ?_⟩
  simp [submitJob, completedStore, lookupJob, recordProcess]

/-- C4 (amended): `submit_job` is a no-op only for a job id that does
not exist; for every existing job — whatever its status, QUEUED or not —
it spawns a worker process, records the worker handle in the process
map, and leaves the job store itself unchanged. -/
theorem submit_spawns_for_existing (st : ManagerState) (job_id : String) (job : Job)
    (h : lookupJob st.jobs job_id = some job) :
    (submitJob st job_id).1 = true ∧
    (submitJob st job_id).2.jobs = st.jobs ∧
    job_id ∈ (submitJob st job_id).2.processes := by
  unfold submitJob
  rw [h]
  refine ⟨rfl, rfl, ?_⟩
  unfold recordProcess
  by_cases hmem : job_id ∈ st.processes <;> simp [hmem]

/-- Witness for C4 (amended): submitting the COMPLETED job records a
handle and leaves the job store alone. -/
theorem submit_spawns_for_existing_witness :
    lookupJob completedStore "job0" = some completedJob ∧
    ((submitJob { jobs := completedStore, processes := [] } "job0").1 = true ∧
      (submitJob { jobs := completedStore, processes := [] } "job0").2.jobs =
        completedStore ∧
      "job0" ∈ (submitJob { jobs := completedStore, processes := [] } "job0").2.processes) :=
  ⟨rfl,
    submit_spawns_for_existing { jobs := completedStore, processes := [] } "job0"
      completedJob rfl⟩

/-- C6 counterexample: cancelling a freshly created QUEUED job does set
status CANCELLED and bump the version, but the stored message is
"Job stopped by user" (job_manager.py line 261), not the
"stopped by caller" text stated by the claim. -/
theorem cancel_message_counterexample :
    (stopJob queuedStore "jobQ").1 = true ∧
    (lookupJob (stopJob queuedStore "jobQ").2 "jobQ").map Job.message =
      some "Job stopped by user" ∧
    ("Job stopped by user" : String) ≠ "stopped by caller" := by
  refine ⟨rfl, rfl, by decide⟩

/-- C6 (amended): for every existing job not in a terminal status,
cancel (`stop_job`) synchronously sets status CANCELLED, sets the
message to "Job stopped by user", bumps the version by exactly one
(leaving progress, result, error and the identity fields untouched),
and returns true. -/
theorem cancel_nonterminal (jobs : JobStore) (job_id : String) (job : Job)
    (h : lookupJob jobs job_id = some job)
    (hterm : ¬(job.status = JobStatus.COMPLETED ∨ job.status = JobStatus.FAILED ∨
      job.status = JobStatus.CANCELLED)) :
    (stopJob jobs job_id).1 = true ∧
    lookupJob (stopJob jobs job_id).2 job_id =
      some
        { job with
          status := JobStatus.CANCELLED
          message := "Job stopped by user"
          version := job.version + 1 } := by
  unfold stopJob
  rw [h]
  dsimp only
  rw [if_neg hterm]
  exact ⟨rfl, lookupJob_setJob_self jobs job_id _⟩

/-- Witness for C6 (amended): cancelling the concrete QUEUED job. -/
theorem cancel_nonterminal_witness :
    lookupJob queuedStore "jobQ" = some queuedJob ∧
    ¬(queuedJob.status = JobStatus.COMPLETED ∨ queuedJob.status = JobStatus.FAILED ∨
      queuedJob.status = JobStatus.CANCELLED) ∧
    ((stopJob queuedStore "jobQ").1 = true ∧
      lookupJob (stopJob queuedStore "jobQ").2 "jobQ" =
        some
          { queuedJob with
            status := JobStatus.CANCELLED
            message := "Job stopped by user"
            version := 1 }) :=
  ⟨rfl, by decide, cancel_nonterminal queuedStore "jobQ" queuedJob rfl (by decide)⟩

/-- The listener's update path never touches any other job's version. -/
theorem getJobVersion_updateJobState_other (jobs : JobStore) (job_id other : String)
    (status : JobStatus) (progress : Int) (message : String)
    (result : Option TranscriptionResponse) (error : Option String)
    (hne : other ≠ job_id) :
    getJobVersion (updateJobState jobs job_id status progress message result error)
        other = getJobVersion jobs other := by
  unfold updateJobState
  cases hl : lookupJob jobs job_id with
  | none => rfl
  | some job =>
      by_cases hc : job.status = JobStatus.CANCELLED
      · simp [hc]
      · dsimp only
        rw [if_neg hc]
        unfold getJobVersion
        rw [lookupJob_setJob_ne jobs job_id other _ hne]

/-- Cancellation never touches any other job's version. -/
theorem getJobVersion_stopJob_other (jobs : JobStore) (job_id other : String)
    (hne : other ≠ job_id) :
    getJobVersion (stopJob jobs job_id).2 other = getJobVersion jobs other := by
  unfold stopJob
  cases hl : lookupJob jobs job_id with
  | none => rfl
  | some job =>
      by_cases ht : job.status = JobStatus.COMPLETED ∨ job.status = JobStatus.FAILED ∨
          job.status = JobStatus.CANCELLED
      · simp [ht]
      · dsimp only
        rw [if_neg ht]
        unfold getJobVersion
        rw [lookupJob_setJob_ne jobs job_id other _ hne]

/-- C5: the version counter starts at 0 when `create_job` inserts a
fresh id, and under each mutation entry point — the listener's
`_update_job_state` and `stop_job` — either the store is returned
unchanged (the mutation was rejected) or the mutated job's version is
exactly the old version plus one; in both cases every other job's
version is untouched. Hence the version is never decremented or reset. -/
theorem version_counter_discipline (jobs : JobStore)
    (newId sid fp vf : String) (lang : Option String) (ts : Nat)
    (job_id other : String) (status : JobStatus) (progress : Int) (message : String)
    (result : Option TranscriptionResponse) (error : Option String)
    (_hfresh : lookupJob jobs newId = none)
    (hne_new : other ≠ newId) (hne : other ≠ job_id) :
    getJobVersion (createJob jobs newId sid fp vf lang ts) newId = 0 ∧
    getJobVersion (createJob jobs newId sid fp vf lang ts) other =
      getJobVersion jobs other ∧
    (updateJobState jobs job_id status progress message result error = jobs ∨
      getJobVersion (updateJobState jobs job_id status progress message result error)
          job_id = getJobVersion jobs job_id + 1) ∧
    getJobVersion (updateJobState jobs job_id status progress message result error)
        other = getJobVersion jobs other ∧
    ((stopJob jobs job_id).2 = jobs ∨
      getJobVersion (stopJob jobs job_id).2 job_id = getJobVersion jobs job_id + 1) ∧
    getJobVersion (stopJob jobs job_id).2 other = getJobVersion jobs other := by
  refine ⟨?_, ?_, ?_, ?_, ?_, ?_⟩
  · unfold createJob getJobVersion
    rw [lookupJob_setJob_self]
    rfl
  · unfold createJob getJobVersion
    rw [lookupJob_setJob_ne jobs newId other _ hne_new]
  · cases hl : lookupJob jobs job_id with
    | none =>
        exact Or.inl (updateJobState_missing jobs job_id status progress message
          result error hl)
    | some job =>
        by_cases hc : job.status = JobStatus.CANCELLED
        · exact Or.inl (updateJobState_cancelled jobs job_id job status progress
            message result error hl hc)
        · right
          have hacc := updateJobState_accepted jobs job_id job status progress
            message result error hl hc
          unfold getJobVersion
          rw [hacc, hl]
          push_cast
          ring
  · exact getJobVersion_updateJobState_other jobs job_id other status progress
      message result error hne
  · cases hl : lookupJob jobs job_id with
    | none =>
        left
        unfold stopJob
        rw [hl]
    | some job =>
        by_cases ht : job.status = JobStatus.COMPLETED ∨
            job.status = JobStatus.FAILED ∨ job.status = JobStatus.CANCELLED
        · left
          unfold stopJob
          rw [hl]
          dsimp only
          rw [if_pos ht]
        · right
          unfold stopJob
          rw [hl]
          dsimp only
          rw [if_neg ht]
          unfold getJobVersion
          rw [lookupJob_setJob_self, hl]
          push_cast
          ring
  · exact getJobVersion_stopJob_other jobs job_id other hne

/-- Witness for C5: a fresh id "jobNew" over the concrete store
`runningStore` (one TRANSCRIBING job "job1" at version 4), with the
frame checked at the unrelated id "ghost". -/
theorem version_counter_discipline_witness :
    lookupJob runningStore "jobNew" = none ∧
    ("ghost" : String) ≠ "jobNew" ∧
    ("ghost" : String) ≠ "job1" ∧
    (getJobVersion
          (createJob runningStore "jobNew" "sessN" "/tmp/n.mp4" "n.mp4" none 7)
          "jobNew" = 0 ∧
      getJobVersion
          (createJob runningStore "jobNew" "sessN" "/tmp/n.mp4" "n.mp4" none 7)
          "ghost" = getJobVersion runningStore "ghost" ∧
      (updateJobState runningStore "job1" JobStatus.COMPLETED 100
          "Transcription complete!" (some sampleResult) none = runningStore ∨
        getJobVersion
            (updateJobState runningStore "job1" JobStatus.COMPLETED 100
              "Transcription complete!" (some sampleResult) none) "job1" =
          getJobVersion runningStore "job1" + 1) ∧
      getJobVersion
          (updateJobState runningStore "job1" JobStatus.COMPLETED 100
            "Transcription complete!" (some sampleResult) none) "ghost" =
        getJobVersion runningStore "ghost" ∧
      ((stopJob runningStore "job1").2 = runningStore ∨
        getJobVersion (stopJob runningStore "job1").2 "job1" =
          getJobVersion runningStore "job1" + 1) ∧
      getJobVersion (stopJob runningStore "job1").2 "ghost" =
        getJobVersion runningStore "ghost") :=
  ⟨rfl, by decide, by decide,
    version_counter_discipline runningStore "jobNew" "sessN" "/tmp/n.mp4" "n.mp4"
      none 7 "job1" "ghost" JobStatus.COMPLETED 100 "Transcription complete!"
      (some sampleResult) none rfl (by decide) (by decide)⟩

/-- C8: for every sub-task percentage `0 ≤ sub_pct ≤ 100` reported by
the tqdm hook, the progress value put on the queue is exactly the
spec's formula `50 + floor(sub_pct * 0.4)` (with 0.4 the exact rational
2/5), and it always lies in the 50–90 band. -/
theorem tqdm_mapping_band (sub_pct : Nat) (h : sub_pct ≤ 100) :
    (tqdmMappedPct sub_pct : Int) = specMappedPct sub_pct ∧
    50 ≤ tqdmMappedPct sub_pct ∧ tqdmMappedPct sub_pct ≤ 90 := by
  refine ⟨?_, ?_, ?_⟩
  · unfold tqdmMappedPct specMappedPct
    have hq : (sub_pct : ℚ) * (2 / 5 : ℚ) =
        ((sub_pct * 2 : ℕ) : ℚ) / ((5 : ℕ) : ℚ) := by
      push_cast
      ring
    rw [hq, Rat.floor_natCast_div_natCast]
    push_cast [Int.natCast_div]
    ring
  · unfold tqdmMappedPct
    omega
  · unfold tqdmMappedPct
    omega

/-- Witness for C8: sub_pct 60 maps to 50 + 24 = 74 (the spec's §8
job-A scenario value). -/
theorem tqdm_mapping_band_witness :
    60 ≤ 100 ∧
    ((tqdmMappedPct 60 : Int) = specMappedPct 60 ∧
      50 ≤ tqdmMappedPct 60 ∧ tqdmMappedPct 60 ≤ 90) ∧
    tqdmMappedPct 60 = 74 :=
  ⟨by decide, tqdm_mapping_band 60 (by decide), by decide⟩

/-- Does the outcome include an exception raised by
`transcriber.cleanup()` after the COMPLETED message was already put? -/
def cleanupFaulted : WorkerOutcome → Bool
  | .success _ _ (some _) => true
  | _ => false

/-- A message respects the failure format of the worker's `except`
clause: if its status is FAILED then its progress is 0 and its error
field is populated. -/
def failedWellFormed (m : Msg) : Bool :=
  !(m.status == JobStatus.FAILED) || ((m.progress == 0) && !(m.error == none))

theorem terminalCount_phaseMsgs (job_id : String) :
    terminalCount (phaseMsgs job_id) = 0 := rfl

theorem terminalCount_failedMsg (job_id e : String) :
    terminalCount [failedMsg job_id e] = 1 := rfl

theorem terminalCount_completedMsg (job_id : String) (res : TranscriptionResponse) :
    terminalCount [completedMsg job_id res] = 1 := rfl

theorem subProgressMsgs_all_wf (job_id : String) (subPcts : List Nat) :
    (subProgressMsgs job_id subPcts).all failedWellFormed = true := by
  apply List.all_eq_true.mpr
  intro m hm
  have hs := subProgressMsgs_status job_id subPcts m hm
  unfold failedWellFormed
  rw [hs]
  rfl

/-- C3 counterexample: `transcriber.cleanup()` is called inside the
worker's `try` block after the COMPLETED message has already been put
(job_manager.py line 125), and `cleanup` itself handles only `OSError`
from the file deletions — any other exception escapes into the worker's
`except` clause, which then puts a FAILED message as well. The trace of
such an execution carries two terminal-status messages (COMPLETED then
FAILED) for one job, refuting "never more than one". -/
theorem worker_double_terminal_counterexample :
    (workerRun "jobC" (WorkerOutcome.success [] sampleResult (some "disk error"))).map
        Msg.status =
      [JobStatus.LOADING_MODEL, JobStatus.CONVERTING, JobStatus.TRANSCRIBING,
        JobStatus.COMPLETED, JobStatus.FAILED] ∧
    terminalCount
        (workerRun "jobC"
          (WorkerOutcome.success [] sampleResult (some "disk error"))) = 2 := by
  exact ⟨rfl, rfl⟩

/-- C3 (amended): for every execution of the worker body, an exception
raised anywhere is caught inside the worker and converted to a FAILED
message with progress 0 and the error field populated, and the trace
carries at least one terminal-status message; it carries exactly one
terminal-status message unless the exception is raised in the
post-success cleanup step — which runs inside the `try` after the
COMPLETED message was already put — in which case the trace carries two
(COMPLETED followed by FAILED). -/
theorem worker_terminal_discipline (job_id : String) (o : WorkerOutcome) :
    1 ≤ terminalCount (workerRun job_id o) ∧
    terminalCount (workerRun job_id o) = (if cleanupFaulted o then 2 else 1) ∧
    (workerRun job_id o).all failedWellFormed = true := by
  cases o with
  | raiseEarly e =>
      exact ⟨Nat.le_refl 1, rfl, rfl⟩
  | raiseInLoad e =>
      exact ⟨Nat.le_refl 1, rfl, rfl⟩
  | raiseInTranscribe subPcts e =>
      have hc : terminalCount (workerRun job_id (WorkerOutcome.raiseInTranscribe subPcts e)) = 1 := by
        show terminalCount
          (phaseMsgs job_id ++ subProgressMsgs job_id subPcts ++ [failedMsg job_id e]) = 1
        rw [terminalCount_append, terminalCount_append,
          terminalCount_phaseMsgs, terminalCount_subProgressMsgs,
          terminalCount_failedMsg]
      refine ⟨by omega, by rw [hc]; rfl, ?_⟩
      show (phaseMsgs job_id ++ subProgressMsgs job_id subPcts ++
          [failedMsg job_id e]).all failedWellFormed = true
      rw [List.all_append, List.all_append]
      rw [subProgressMsgs_all_wf]
      rfl
  | success subPcts res cleanupFault =>
      cases cleanupFault with
      | none =>
          have hc : terminalCount
              (workerRun job_id (WorkerOutcome.success subPcts res none)) = 1 := by
            show terminalCount
              (phaseMsgs job_id ++ subProgressMsgs job_id subPcts ++
                [completedMsg job_id res] ++ []) = 1
            rw [terminalCount_append, terminalCount_append, terminalCount_append,
              terminalCount_phaseMsgs, terminalCount_subProgressMsgs,
              terminalCount_completedMsg]
            rfl
          refine ⟨by omega, by rw [hc]; rfl, ?_⟩
          show (phaseMsgs job_id ++ subProgressMsgs job_id subPcts ++
              [completedMsg job_id res] ++ []).all failedWellFormed = true
          rw [List.all_append, List.all_append, List.all_append]
          rw [subProgressMsgs_all_wf]
          rfl
      | some e =>
          have hc : terminalCount
              (workerRun job_id (WorkerOutcome.success subPcts res (some e))) = 2 := by
            show terminalCount
              (phaseMsgs job_id ++ subProgressMsgs job_id subPcts ++
                [completedMsg job_id res] ++ [failedMsg job_id e]) = 2
            rw [terminalCount_append, terminalCount_append, terminalCount_append,
              terminalCount_phaseMsgs, terminalCount_subProgressMsgs,
              terminalCount_completedMsg, terminalCount_failedMsg]
          refine ⟨by omega, by rw [hc]; rfl, ?_⟩
          show (phaseMsgs job_id ++ subProgressMsgs job_id subPcts ++
              [completedMsg job_id res] ++ [failedMsg job_id e]).all
                failedWellFormed = true
          rw [List.all_append, List.all_append, List.all_append]
          rw [subProgressMsgs_all_wf]
          rfl

/-- Witness for C3 (amended): a concrete failing execution — the
transcriber raises "model error" mid core computation after one
sub-progress report — yields exactly one terminal message, and every
FAILED message carries progress 0 and a populated error. -/
theorem worker_terminal_discipline_witness :
    1 ≤ terminalCount
        (workerRun "jobW" (WorkerOutcome.raiseInTranscribe [10] "model error")) ∧
    terminalCount
        (workerRun "jobW" (WorkerOutcome.raiseInTranscribe [10] "model error")) =
      (if cleanupFaulted (WorkerOutcome.raiseInTranscribe [10] "model error") then 2
       else 1) ∧
    (workerRun "jobW" (WorkerOutcome.raiseInTranscribe [10] "model error")).all
        failedWellFormed = true :=
  worker_terminal_discipline "jobW" (WorkerOutcome.raiseInTranscribe [10] "model error")

end JobManager
